import Mathlib

/-!
Shallow embedding of the data pipeline of `APP.py` (world-cities dashboard).

The embedded parts are: `load_data` (APP.py lines 106-135), the cache /
refresh behaviour of the sidebar button (lines 146-148 together with the
`st.cache_data` decorator on `load_data`), the filter / sort / rank / scale
pipeline (lines 186-208), the rank-based selection lookup (lines 292-296 and
330-338), and the CSV export (line 388).

Machine floats (`math.sqrt`, `math.log10`) are represented symbolically by
`ScaleVal` and interpreted as exact real numbers by `ScaleVal.toReal`; the
pipeline itself stays fully computable.
-/

deriving instance DecidableEq for Except

/-- One raw row of the first HTML table that `pd.read_html` returns for the
Wikipedia page (APP.py lines 108-121).  The column lower-casing and renaming
of lines 115-121 is abstracted into the three canonical fields; `population`
is still the raw cell text. -/
structure RawRow where
  city : String
  country : String
  population : String
deriving DecidableEq

/-- A row of the frame produced by `load_data` after population cleaning and
the `Source` column assignment (APP.py lines 124-132). -/
structure CityRow where
  city : String
  country : String
  population : Int
  source : String
deriving DecidableEq

/-- A pandas DataFrame as `APP.py` uses it: the column labels plus the rows.
The labels matter because `df.dropna(subset=[...])` raises a `KeyError`
when a subset column is absent from the frame. -/
structure CityFrame where
  cols : List String
  rows : List CityRow
deriving DecidableEq

/-- Symbolic value of the `PopScale` column (APP.py lines 202, 205-208):
either `math.sqrt(max(int(x), 0))` or `math.log10(max(int(x), 1))`.
Interpreted as an exact real number by `ScaleVal.toReal`. -/
inductive ScaleVal where
  | sqrtOf (n : Int)
  | log10Of (n : Int)
deriving DecidableEq

/-- A row of the view frame after `Rank` insertion (line 199) and the
`PopScale` column (lines 202, 205-208). -/
structure RankedRow where
  rank : Nat
  city : String
  country : String
  population : Int
  source : String
  popScale : ScaleVal
deriving DecidableEq

/-- The constant `Source` value of APP.py line 132. -/
def wiki_source : String := "Wikipedia (List of largest cities)"

/-- `df["Population"].astype(str).str.replace(r"[^\d]", "", regex=True)`
(APP.py lines 124-128): every character that is not a decimal digit is
removed — the sign and any exponent marker included. -/
def stripNonDigits (s : String) : String :=
  String.mk (s.toList.filter Char.isDigit)

/-- Value of a digit string, most significant digit first. -/
def digitsVal (cs : List Char) : Int :=
  cs.foldl (fun a c => 10 * a + ((c.toNat : Int) - 48)) 0

/-- `.astype("int64")` on one cell (APP.py line 128), for the inputs this
program produces (outputs of `stripNonDigits`, hence digit-only strings):
an empty string raises `ValueError`, a digit string parses to its value.
(The general pandas parser also accepts a sign and surrounding whitespace,
and raises `OverflowError` past 64 bits; neither case is reachable here and
64-bit overflow of astronomically long digit strings is not modelled.) -/
def astypeInt64 (s : String) : Except String Int :=
  if s.toList.isEmpty then
    Except.error ("ValueError: invalid literal for int() with base 10: " ++ s)
  else if s.toList.all Char.isDigit then Except.ok (digitsVal s.toList)
  else Except.error ("ValueError: invalid literal for int() with base 10: " ++ s)

/-- The population cleaning of APP.py lines 124-129 on one cell. -/
def cleanPop (s : String) : Except String Int :=
  astypeInt64 (stripNonDigits s)

/-- Lines 124-132 over the whole frame: clean every population cell (pandas
`astype` raises on the first bad cell, failing the whole load) and attach the
constant `Source` column. -/
def cleanRows : List RawRow → Except String (List CityRow)
  | [] => Except.ok []
  | rr :: rest =>
    match cleanPop rr.population with
    | Except.error e => Except.error e
    | Except.ok p =>
      match cleanRows rest with
      | Except.error e => Except.error e
      | Except.ok tl =>
        Except.ok ({ city := rr.city, country := rr.country, population := p,
                     source := wiki_source } :: tl)

/-- Ordering used by `df.sort_values("Population", ascending=False)`:
row `a` may come before row `b` iff `b.population ≤ a.population`. -/
def popDescLe (a b : CityRow) : Prop := b.population ≤ a.population

instance : DecidableRel popDescLe := fun a b => Int.decLe b.population a.population

instance : IsTotal CityRow popDescLe := ⟨fun a b => le_total b.population a.population⟩

instance : IsTrans CityRow popDescLe := ⟨fun _ _ _ hab hbc => le_trans hbc hab⟩

/-- `df.sort_values("Population", ascending=False)` (APP.py lines 134, 198).
The single sort key is the population; the city name does not participate.
pandas' default numpy quicksort leaves the relative order of equal keys
implementation-defined; it is modelled as a stable sort, which coincides
with numpy exactly on the small frames used in every tie-sensitive statement
below (numpy introsort runs plain insertion sort under 16 elements). -/
def sort_values_pop_desc (rows : List CityRow) : List CityRow :=
  List.insertionSort popDescLe rows

/-- `load_data` (APP.py lines 106-135).  `fetch` is the outcome of
`pd.read_html(url)` reduced to the first table: an exception or raw rows.
The function body has no error handling at all, so a fetch failure
propagates; `GEONAMES_URL` (line 98) is never consulted. -/
def load_data (fetch : Except String (List RawRow)) (top_n : Nat) :
    Except String CityFrame :=
  match fetch with
  | Except.error e => Except.error e
  | Except.ok raws =>
    match cleanRows raws with
    | Except.error e => Except.error e
    | Except.ok rows =>
      Except.ok { cols := ["City", "Country", "Population", "Source"],
                  rows := (sort_values_pop_desc rows).take top_n }

/-- `st.cache_data.clear()` (APP.py line 147): the cached frame is discarded
unconditionally. -/
def clearCache (_cache : Option CityFrame) : Option CityFrame := none

/-- The `st.cache_data`-decorated call of `load_data` (lines 106, 163): a
cached frame is served as is; otherwise `load_data` runs and its result is
cached on success, while its exception propagates to the script. -/
def cachedLoadData (cache : Option CityFrame) (fetch : Except String (List RawRow))
    (top_n : Nat) : Except String (CityFrame × Option CityFrame) :=
  match cache with
  | some df => Except.ok (df, some df)
  | none =>
    match load_data fetch top_n with
    | Except.ok df => Except.ok (df, some df)
    | Except.error e => Except.error e

/-- The refresh button (APP.py lines 146-148): clear the cache, rerun the
script, which calls the cached `load_data` again with a fresh fetch. -/
def refreshThenLoad (cache : Option CityFrame) (fetch : Except String (List RawRow))
    (top_n : Nat) : Except String (CityFrame × Option CityFrame) :=
  cachedLoadData (clearCache cache) fetch top_n

/-- Python `re` matching of a pattern against a text prefix, for patterns
built from literal characters and the metacharacter `.` (any character other
than a newline).  Comparison is lower-cased: the code compiles with
`case=False` / `re.IGNORECASE`.  Patterns using other regex metacharacters
are outside this embedding. -/
def patMatchesAt : List Char → List Char → Bool
  | [], _ => true
  | _ :: _, [] => false
  | p :: ps, c :: cs =>
    ((p == '.' && !(c == '\n')) || p.toLower == c.toLower) && patMatchesAt ps cs

/-- Case-insensitive literal prefix comparison (used by the spec-side
substring predicate below). -/
def litSubstrAt : List Char → List Char → Bool
  | [], _ => true
  | _ :: _, [] => false
  | n :: ns, c :: cs => (n.toLower == c.toLower) && litSubstrAt ns cs

/-- Try a prefix matcher at every start position of the text, as `re.search`
does. -/
def scanMatch (m : List Char → List Char → Bool) (p : List Char) :
    List Char → Bool
  | [] => m p []
  | c :: cs => m p (c :: cs) || scanMatch m p cs

/-- `Series.str.contains(query, case=False, na=False)` (APP.py lines
194-195): the query is compiled as a regular expression (`regex=True` is the
pandas default) with `re.IGNORECASE` and searched anywhere in the cell. -/
def re_search (pat s : String) : Bool :=
  scanMatch patMatchesAt pat.toList s.toList

/-- Modelled from the spec: case-insensitive literal substring containment
("case-insensitive substring match against city OR country"), the reading
claim C6 asserts for the search filter. -/
def litSubstrCI (needle hay : String) : Bool :=
  scanMatch litSubstrAt needle.toList hay.toList

/-- The search filter (APP.py lines 192-196): `if query:` skips the filter
for the empty string, otherwise rows whose city or country matches the
query are kept. -/
def search_filter (q : String) (rows : List CityRow) : List CityRow :=
  if q = "" then rows
  else rows.filter (fun r => re_search q r.city || re_search q r.country)

/-- The query parameters of the sidebar (APP.py lines 150-179), named after
the script variables. -/
structure QueryParams where
  top_n : Nat
  min_pop : Int
  selected_countries : List String
  query : String
  only_mapped : Bool
  log_bubbles : Bool
deriving DecidableEq

/-- Lines 198-202 after the sort: `reset_index`, `df.insert(0, "Rank",
df.index + 1)` and the initial `PopScale` column
`df["Population"].apply(lambda x: math.sqrt(max(int(x), 0)))`. -/
def withRanks : Nat → List CityRow → List RankedRow
  | _, [] => []
  | i, r :: rs =>
    { rank := i, city := r.city, country := r.country,
      population := r.population, source := r.source,
      popScale := ScaleVal.sqrtOf r.population } :: withRanks (i + 1) rs

/-- `df.dropna(subset=["Latitude", "Longitude"])` guarded by `only_mapped`
(APP.py lines 203-204).  pandas raises a `KeyError` when a subset column is
missing from the frame; when both columns were present it would drop the
rows with a null coordinate (no such value is representable in the frames
`load_data` builds, which have neither column, so the kept-branch returns
the rows unchanged). -/
def dropnaLatLong (only_mapped : Bool) (cols : List String)
    (rows : List RankedRow) : Except String (List RankedRow) :=
  if only_mapped then
    if "Latitude" ∈ cols ∧ "Longitude" ∈ cols then Except.ok rows
    else Except.error "KeyError: [Latitude, Longitude]"
  else Except.ok rows

/-- The final `PopScale` assignment (APP.py lines 205-208): the column is
recomputed over the whole frame, log10 or sqrt depending on `log_bubbles`. -/
def assignPopScale (log_bubbles : Bool) (rows : List RankedRow) : List RankedRow :=
  rows.map (fun r =>
    { r with popScale :=
        if log_bubbles then ScaleVal.log10Of r.population
        else ScaleVal.sqrtOf r.population })

/-- `df = df[df["Population"] >= min_pop]` (APP.py line 187). -/
def min_pop_filter (min_pop : Int) (rows : List CityRow) : List CityRow :=
  rows.filter (fun r => min_pop ≤ r.population)

/-- `if selected_countries: df = df[df["Country"].isin(selected_countries)]`
(APP.py lines 189-190). -/
def countries_filter (selected : List String) (rows : List CityRow) : List CityRow :=
  if selected.isEmpty then rows
  else rows.filter (fun r => selected.contains r.country)

/-- APP.py lines 186-202 after the filters: sort by population descending,
truncate to `top_n`, `reset_index`, insert `Rank = index + 1` and the
initial sqrt `PopScale` column. -/
def rankedOf (df_all : CityFrame) (top_n : Nat) (min_pop : Int)
    (selected : List String) (q : String) : List RankedRow :=
  withRanks 1 ((sort_values_pop_desc
    (search_filter q (countries_filter selected (min_pop_filter min_pop df_all.rows)))).take top_n)

/-- The whole FILTER / PREP section (APP.py lines 186-208) applied to the
frame `df_all` that `load_data` returned: population floor (187), country
allow-list (189-190), search (192-196), sort + truncate (198), rank (199),
`PopScale` (202), conditional `dropna` on the coordinate columns (203-204),
final `PopScale` (205-208).  The frame columns at the `dropna` step are
`Rank`, the `load_data` columns, and `PopScale`. -/
def viewPipeline (df_all : CityFrame) (p : QueryParams) :
    Except String (List RankedRow) :=
  match dropnaLatLong p.only_mapped ("Rank" :: df_all.cols ++ ["PopScale"])
      (rankedOf df_all p.top_n p.min_pop p.selected_countries p.query) with
  | Except.error e => Except.error e
  | Except.ok kept => Except.ok (assignPopScale p.log_bubbles kept)

/-- The rows the rest of the script works with: the pipeline output, or no
rows once the script has died on the pipeline exception. -/
def viewRows (df_all : CityFrame) (p : QueryParams) : List RankedRow :=
  match viewPipeline df_all p with
  | Except.ok l => l
  | Except.error _ => []

/-- The selection lookup `hit = df[df["Rank"] == sel_rank]` followed by the
`hit.empty` check and `hit.iloc[0]` (APP.py lines 292-296 and 330-338):
`none` is the "Selected city not in current filter." info path. -/
def sel_lookup (rows : List RankedRow) (sel_rank : Nat) : Option RankedRow :=
  (rows.filter (fun r => r.rank == sel_rank)).head?

/-- Header of the exported frame `df[["Rank", "City", "Country",
"Population", "Source"]]` (APP.py line 388). -/
def csvHeaderCells : List String := ["Rank", "City", "Country", "Population", "Source"]

/-- The five exported cells of one row, rendered as text (line 388). -/
def csvCells (r : RankedRow) : List String :=
  [toString r.rank, r.city, r.country, toString r.population, r.source]

/-- The `csv.QUOTE_MINIMAL` condition `to_csv` uses: a field is quoted iff
it contains the separator, the quote character, or a line break. -/
def needsQuoteMinimal (s : String) : Bool :=
  s.toList.any (fun c => c == ',' || c == '"' || c == '\n' || c == '\r')

/-- One field as `to_csv` writes it: quoted with inner quotes doubled when
`QUOTE_MINIMAL` requires it, verbatim otherwise. -/
def csvEscapeMinimal (s : String) : String :=
  if needsQuoteMinimal s then "\"" ++ s.replace "\"" "\"\"" ++ "\"" else s

/-- One CSV line: the cells under a given field escaping, comma-joined. -/
def csvLineWith (esc : String → String) (cells : List String) : String :=
  String.intercalate "," (cells.map esc)

/-- `df[["Rank", "City", "Country", "Population", "Source"]].to_csv(index=False)`
(APP.py line 388): a header line and one line per row in frame order, each
terminated by a newline, fields escaped per `QUOTE_MINIMAL`. -/
def toCsv (rows : List RankedRow) : String :=
  String.join ((csvLineWith csvEscapeMinimal csvHeaderCells ::
    rows.map (fun r => csvLineWith csvEscapeMinimal (csvCells r))).map (fun l => l ++ "\n"))

/-- Modelled from the spec: a value is quoted when it contains commas or
quotes ("values containing commas/quotes must be quoted per standard CSV
escaping"). -/
def needsQuoteSpec (s : String) : Bool :=
  s.toList.any (fun c => c == ',' || c == '"')

/-- Modelled from the spec: standard CSV escaping of one projected value. -/
def specEscape (s : String) : String :=
  if needsQuoteSpec s then "\"" ++ s.replace "\"" "\"\"" ++ "\"" else s

/-- Modelled from the spec: the projection of `Rank, City, Country,
Population, Source` of the view records, in view order, as comma-separated
text under the spec escaping rule. -/
def specCsvExport (rows : List RankedRow) : String :=
  String.join ((csvLineWith specEscape csvHeaderCells ::
    rows.map (fun r => csvLineWith specEscape (csvCells r))).map (fun l => l ++ "\n"))

/-- Exact real value of a `PopScale` cell: `math.sqrt` and `math.log10` of
APP.py lines 202 and 205-208, read over the reals. -/
noncomputable def ScaleVal.toReal : ScaleVal → ℝ
  | ScaleVal.sqrtOf n => Real.sqrt ((max n 0 : Int) : ℝ)
  | ScaleVal.log10Of n => Real.logb 10 ((max n 1 : Int) : ℝ)

/-- The non-presentational fields of a view row (everything except
`PopScale`). -/
def stripScale (r : RankedRow) : Nat × String × String × Int × String :=
  (r.rank, r.city, r.country, r.population, r.source)

/-- A concrete Wikipedia-style raw row (thousands separators in the
population cell). -/
def rawTokyo : RawRow :=
  { city := "Tokyo", country := "Japan", population := "37,400,068" }

/-- The frame `load_data` builds from `[rawTokyo]`. -/
def dfTokyo : CityFrame :=
  { cols := ["City", "Country", "Population", "Source"],
    rows := [{ city := "Tokyo", country := "Japan", population := 37400068,
               source := wiki_source }] }

/-- Sidebar defaults (APP.py lines 150-179): sliders at their initial
values, no country selection, empty search, both toggles off. -/
def pDefault : QueryParams :=
  { top_n := 500, min_pop := 0, selected_countries := [], query := "",
    only_mapped := false, log_bubbles := false }

/-- Defaults with the "Only cities with coordinates" toggle on. -/
def pMapped : QueryParams := { pDefault with only_mapped := true }

/-- A previously published one-row dataset, for the refresh scenario. -/
def dfLagos : CityFrame :=
  { cols := ["City", "Country", "Population", "Source"],
    rows := [{ city := "Lagos", country := "Nigeria", population := 9000000,
               source := wiki_source }] }

/-- Two raw rows with equal populations, larger city name first. -/
def rawTie : List RawRow :=
  [{ city := "Bbb", country := "X", population := "1000" },
   { city := "Aaa", country := "X", population := "1000" }]

/-- The frame `load_data` builds from `rawTie`. -/
def dfTie : CityFrame :=
  { cols := ["City", "Country", "Population", "Source"],
    rows := [{ city := "Bbb", country := "X", population := 1000, source := wiki_source },
             { city := "Aaa", country := "X", population := 1000, source := wiki_source }] }

/-- A one-row frame whose city matches the regex `a.c` but does not contain
it literally. -/
def dfAbc : CityFrame :=
  { cols := ["City", "Country", "Population", "Source"],
    rows := [{ city := "abc", country := "Xland", population := 5000000,
               source := wiki_source }] }

/-- Defaults with search text `a.c`. -/
def pDotQ : QueryParams := { pDefault with query := "a.c" }

/-- C1: the code evaluated at the failing input.  On the frame `load_data`
returns, turning on `only_mapped` makes the pipeline raise a `KeyError`
(the frame has no Latitude / Longitude columns), instead of dropping
coordinate-less records before sorting and truncation as the claim states;
the `dropna` moreover only runs after sorting, truncation and the Rank
assignment (APP.py lines 198-204). -/
theorem view_only_mapped_keyerror :
    load_data (Except.ok [rawTokyo]) 500 = Except.ok dfTokyo
    ∧ viewPipeline dfTokyo pMapped = Except.error "KeyError: [Latitude, Longitude]" := by
  decide

/-- C2, counterexample to the claim as stated: a population cell with no
digits (the empty string) raises a `ValueError` that escapes `load_data`
instead of skipping the row; the leading sign is not preserved, so `"-5"`
parses to `5`; and a `0` population row is kept in the canonical frame, not
skipped. -/
theorem cleanPop_counterexample :
    load_data (Except.ok [{ city := "Atlantis", country := "Nowhere", population := "" }]) 500 =
      Except.error "ValueError: invalid literal for int() with base 10: "
    ∧ cleanPop "-5" = Except.ok 5
    ∧ load_data (Except.ok [{ city := "Ghost", country := "Nowhere", population := "0" }]) 500 =
      Except.ok { cols := ["City", "Country", "Population", "Source"],
                  rows := [{ city := "Ghost", country := "Nowhere", population := 0,
                             source := wiki_source }] } := by
  decide

/-- C2, amended: population cleaning strips every non-digit character (sign
and exponent markers included); a cell containing at least one digit always
parses to the nonnegative integer formed by its digit subsequence and the
row is kept whatever that value is, while a cell with no digits raises a
`ValueError` that escapes the loader. -/
theorem cleanPop_spec (s : String) :
    (s.toList.any Char.isDigit = false →
      cleanPop s = Except.error ("ValueError: invalid literal for int() with base 10: "
        ++ stripNonDigits s))
    ∧ (s.toList.any Char.isDigit = true →
      cleanPop s = Except.ok (digitsVal (s.toList.filter Char.isDigit))) := by
  constructor
  · intro h
    have hnil : s.data.filter Char.isDigit = [] := by
      apply List.filter_eq_nil_iff.mpr
      intro x hx hpx
      have hx2 : s.toList.any Char.isDigit = true := List.any_eq_true.mpr ⟨x, hx, hpx⟩
      rw [h] at hx2
      cases hx2
    simp [cleanPop, astypeInt64, stripNonDigits, hnil]
  · intro h
    obtain ⟨x, hx, hpx⟩ := List.any_eq_true.mp h
    have hmem : x ∈ s.data.filter Char.isDigit := List.mem_filter.mpr ⟨hx, hpx⟩
    have hne : ¬ s.data.filter Char.isDigit = [] := by
      intro hc
      rw [hc] at hmem
      cases hmem
    have hall : ∀ c ∈ s.data.filter Char.isDigit, c.isDigit = true :=
      fun c hc => (List.mem_filter.mp hc).2
    simp [cleanPop, astypeInt64, stripNonDigits, hne, hall]

/-- C2, witness: a digit-bearing cell parses to its digit subsequence. -/
theorem cleanPop_spec_witness :
    cleanPop "1,234,567" = Except.ok (digitsVal ("1,234,567".toList.filter Char.isDigit)) :=
  (cleanPop_spec "1,234,567").2 (by decide)

/-- C3, counterexample to the claim as stated: with dataset D published and
the refresh button pressed, a subsequent total fetch failure yields an
error, not a view computed from D — the button cleared the cache before the
reload (APP.py lines 146-148). -/
theorem refresh_counterexample :
    refreshThenLoad (some dfLagos) (Except.error "ConnectionError") 500 =
      Except.error "ConnectionError"
    ∧ refreshThenLoad (some dfLagos) (Except.error "ConnectionError") 500 ≠
      Except.ok (dfLagos, some dfLagos) := by
  decide

/-- C3, amended: the refresh action unconditionally clears the cache, so
after a refresh whose fetch fails entirely no previous dataset remains in
effect and the failure propagates as an error, whatever was cached before. -/
theorem refresh_clears_and_propagates (cache : Option CityFrame) (e : String)
    (top_n : Nat) :
    clearCache cache = none
    ∧ refreshThenLoad cache (Except.error e) top_n = Except.error e :=
  ⟨rfl, rfl⟩

/-- C4: the code evaluated at the failing input.  When the Wikipedia fetch
fails, `load_data` propagates the failure for every requested size: no
second source is consulted (`GEONAMES_URL` is defined at APP.py line 98 and
never referenced, although the About tab at line 494 promises a GeoNames
fallback). -/
theorem load_data_no_fallback (e : String) (top_n : Nat) :
    load_data (Except.error e) top_n = Except.error e := rfl

/-- C10: when no record of the current view carries the previously selected
Rank, the selection lookup returns `none` (rendered as the "Selected city
not in current filter." message) rather than a record. -/
theorem sel_lookup_not_found (rows : List RankedRow) (sel_rank : Nat)
    (h : ∀ r ∈ rows, r.rank ≠ sel_rank) : sel_lookup rows sel_rank = none := by
  unfold sel_lookup
  have hnil : rows.filter (fun r => r.rank == sel_rank) = [] := by
    apply List.filter_eq_nil_iff.mpr
    intro r hr
    simpa using h r hr
  rw [hnil]
  rfl

/-- Two ranked rows, for the stale-selection scenario. -/
def rowsW10 : List RankedRow :=
  [{ rank := 1, city := "Tokyo", country := "Japan", population := 37400068,
     source := wiki_source, popScale := ScaleVal.sqrtOf 37400068 },
   { rank := 2, city := "Delhi", country := "India", population := 28514000,
     source := wiki_source, popScale := ScaleVal.sqrtOf 28514000 }]

/-- C10, witness: looking up the vanished Rank 3 yields `none`. -/
theorem sel_lookup_not_found_witness : sel_lookup rowsW10 3 = none :=
  sel_lookup_not_found rowsW10 3 (by decide)

/-- C5, counterexample to the claim as stated: a canonical dataset with two
equal-population records keeps them in prior order, so the record with the
lexicographically smaller city name (`Aaa`) appears second, not first. -/
theorem sort_tie_counterexample :
    load_data (Except.ok rawTie) 500 = Except.ok dfTie
    ∧ viewRows dfTie pDefault =
      [{ rank := 1, city := "Bbb", country := "X", population := 1000,
         source := wiki_source, popScale := ScaleVal.sqrtOf 1000 },
       { rank := 2, city := "Aaa", country := "X", population := 1000,
         source := wiki_source, popScale := ScaleVal.sqrtOf 1000 }]
    ∧ "Aaa".toList < "Bbb".toList := by
  decide

/-- C6, counterexample to the claim as stated: with search text `a.c` the
view keeps the row for city `abc`, although neither its city nor its
country contains `a.c` as a case-insensitive literal substring — the code
compiles the search text as a regular expression. -/
theorem search_regex_counterexample :
    viewRows dfAbc pDotQ =
      [{ rank := 1, city := "abc", country := "Xland", population := 5000000,
         source := wiki_source, popScale := ScaleVal.sqrtOf 5000000 }]
    ∧ litSubstrCI "a.c" "abc" = false
    ∧ litSubstrCI "a.c" "Xland" = false := by
  decide

/-- Every row `cleanRows` produces carries the constant Wikipedia source
tag of APP.py line 132. -/
theorem cleanRows_source (raws : List RawRow) :
    ∀ rows, cleanRows raws = Except.ok rows → ∀ r ∈ rows, r.source = wiki_source := by
  induction raws with
  | nil =>
    intro rows h r hr
    cases h
    cases hr
  | cons rr rest ih =>
    intro rows h r hr
    unfold cleanRows at h
    cases hcp : cleanPop rr.population with
    | error e => rw [hcp] at h; cases h
    | ok pv =>
      rw [hcp] at h
      cases hcr : cleanRows rest with
      | error e => rw [hcr] at h; cases h
      | ok tl =>
        rw [hcr] at h
        cases h
        rcases List.mem_cons.mp hr with h1 | h1
        · rw [h1]
        · exact ih tl hcr r h1

/-- Membership survives the sort-descending-and-truncate step of
`load_data` (APP.py line 134) backwards. -/
theorem mem_of_mem_sort_take {rows : List CityRow} {n : Nat} {r : CityRow}
    (h : r ∈ (sort_values_pop_desc rows).take n) : r ∈ rows :=
  (List.perm_insertionSort popDescLe rows).subset
    ((List.take_sublist n (sort_values_pop_desc rows)).subset h)

/-- C7: a successfully loaded frame has exactly the columns City, Country,
Population, Source — in particular neither Latitude nor Longitude — and
every row is tagged with the constant Wikipedia source string. -/
theorem load_data_shape (raws : List RawRow) (top_n : Nat) (df : CityFrame)
    (h : load_data (Except.ok raws) top_n = Except.ok df) :
    df.cols = ["City", "Country", "Population", "Source"]
    ∧ ¬ "Latitude" ∈ df.cols
    ∧ ¬ "Longitude" ∈ df.cols
    ∧ ∀ r ∈ df.rows, r.source = wiki_source := by
  unfold load_data at h
  dsimp only at h
  cases hcr : cleanRows raws with
  | error e => rw [hcr] at h; cases h
  | ok rows =>
    rw [hcr] at h
    cases h
    refine ⟨rfl, ?_, ?_, ?_⟩
    · show ¬ "Latitude" ∈ (["City", "Country", "Population", "Source"] : List String)
      decide
    · show ¬ "Longitude" ∈ (["City", "Country", "Population", "Source"] : List String)
      decide
    · intro r hr
      exact cleanRows_source raws rows hcr r (mem_of_mem_sort_take hr)

/-- C7, witness: the shape facts hold for the frame loaded from the
concrete Tokyo table. -/
theorem load_data_shape_witness :
    dfTokyo.cols = ["City", "Country", "Population", "Source"]
    ∧ ¬ "Latitude" ∈ dfTokyo.cols
    ∧ ¬ "Longitude" ∈ dfTokyo.cols
    ∧ ∀ r ∈ dfTokyo.rows, r.source = wiki_source :=
  load_data_shape [rawTokyo] 500 dfTokyo (by decide)

/-- Ranking keeps the population column (APP.py lines 199-202 add columns,
they do not reorder or rewrite populations). -/
theorem map_pop_withRanks (i : Nat) (l : List CityRow) :
    (withRanks i l).map (fun r => r.population) = l.map (fun r => r.population) := by
  induction l generalizing i with
  | nil => rfl
  | cons a as ih =>
    unfold withRanks
    rw [List.map_cons, List.map_cons, ih]

/-- The final `PopScale` assignment keeps the population column. -/
theorem map_pop_assignPopScale (b : Bool) (l : List RankedRow) :
    (assignPopScale b l).map (fun r => r.population) = l.map (fun r => r.population) := by
  unfold assignPopScale
  rw [List.map_map]
  rfl

/-- The ranked-and-scaled list is sorted by population, descending. -/
theorem pairwise_pop_ranked (b : Bool) (n : Nat) (l : List CityRow) :
    List.Pairwise (fun a c : RankedRow => c.population ≤ a.population)
      (assignPopScale b (withRanks 1 ((sort_values_pop_desc l).take n))) := by
  have hs : List.Pairwise popDescLe (sort_values_pop_desc l) :=
    List.sorted_insertionSort popDescLe l
  have ht : List.Pairwise popDescLe ((sort_values_pop_desc l).take n) :=
    hs.sublist (List.take_sublist n (sort_values_pop_desc l))
  have h1 : List.Pairwise (fun a c : Int => c ≤ a)
      (((sort_values_pop_desc l).take n).map (fun r => r.population)) :=
    List.pairwise_map.mpr ht
  rw [← map_pop_withRanks 1, ← map_pop_assignPopScale b] at h1
  exact List.pairwise_map.mp h1

/-- `dropnaLatLong` either keeps the rows unchanged or raises the
KeyError. -/
theorem dropnaLatLong_cases (b : Bool) (cols : List String) (rows : List RankedRow) :
    dropnaLatLong b cols rows = Except.ok rows
    ∨ dropnaLatLong b cols rows = Except.error "KeyError: [Latitude, Longitude]" := by
  unfold dropnaLatLong
  by_cases hb : b = true
  · rw [if_pos hb]
    by_cases hc : "Latitude" ∈ cols ∧ "Longitude" ∈ cols
    · rw [if_pos hc]
      exact Or.inl rfl
    · rw [if_neg hc]
      exact Or.inr rfl
  · rw [if_neg hb]
    exact Or.inl rfl

/-- The view output is either nothing (the script died on the KeyError) or
the ranked-and-scaled list itself. -/
theorem viewRows_cases (df_all : CityFrame) (p : QueryParams) :
    viewRows df_all p = []
    ∨ viewRows df_all p = assignPopScale p.log_bubbles
        (rankedOf df_all p.top_n p.min_pop p.selected_countries p.query) := by
  unfold viewRows viewPipeline
  rcases dropnaLatLong_cases p.only_mapped ("Rank" :: df_all.cols ++ ["PopScale"])
      (rankedOf df_all p.top_n p.min_pop p.selected_countries p.query) with hd | hd
  · rw [hd]
    exact Or.inr rfl
  · rw [hd]
    exact Or.inl rfl

/-- C5, amended: the view sorts by population descending only — the output
populations are nonincreasing — and the city name takes no part in the
ordering: records of equal population stay in their prior relative order
(the underlying stable order), not city-ascending. -/
theorem view_pop_sorted (df_all : CityFrame) (p : QueryParams) :
    List.Pairwise (fun a b : RankedRow => b.population ≤ a.population)
      (viewRows df_all p) := by
  rcases viewRows_cases df_all p with h | h
  · rw [h]
    exact List.Pairwise.nil
  · rw [h]
    exact pairwise_pop_ranked p.log_bubbles p.top_n
      (search_filter p.query (countries_filter p.selected_countries
        (min_pop_filter p.min_pop df_all.rows)))

/-- The final `PopScale` assignment touches no other column: stripping the
scale gives back the ranked projection unchanged. -/
theorem map_strip_assignPopScale (b : Bool) (l : List RankedRow) :
    (assignPopScale b l).map stripScale = l.map stripScale := by
  unfold assignPopScale
  rw [List.map_map]
  rfl

/-- C8: every view row carries `PopScale = sqrt(max(pop, 0))` by default and
`log10(max(pop, 1))` under log scaling; both transforms are monotone
nondecreasing in the population (and the sqrt one equals `sqrt(population)`
on the nonnegative populations the loader produces); and the scale mode
changes no other part of the view — it is never used for sorting or
filtering. -/
theorem popscale_presentation :
    (∀ (df_all : CityFrame) (p : QueryParams) (r : RankedRow), r ∈ viewRows df_all p →
      r.popScale = (if p.log_bubbles then ScaleVal.log10Of r.population
                    else ScaleVal.sqrtOf r.population))
    ∧ Monotone (fun n : Int => (ScaleVal.sqrtOf n).toReal)
    ∧ Monotone (fun n : Int => (ScaleVal.log10Of n).toReal)
    ∧ (∀ n : Int, 0 ≤ n → (ScaleVal.sqrtOf n).toReal = Real.sqrt (n : ℝ))
    ∧ (∀ (df_all : CityFrame) (p : QueryParams),
        (viewRows df_all p).map stripScale =
        (viewRows df_all { p with log_bubbles := !p.log_bubbles }).map stripScale) := by
  refine ⟨?_, ?_, ?_, ?_, ?_⟩
  · intro df_all p r hr
    rcases viewRows_cases df_all p with h | h
    · rw [h] at hr
      cases hr
    · rw [h] at hr
      unfold assignPopScale at hr
      obtain ⟨pre, hpre, heq⟩ := List.mem_map.mp hr
      rw [← heq]
  · intro a b hab
    show Real.sqrt ((max a 0 : Int) : ℝ) ≤ Real.sqrt ((max b 0 : Int) : ℝ)
    apply Real.sqrt_le_sqrt
    exact_mod_cast max_le_max hab (le_refl (0 : Int))
  · intro a b hab
    show Real.logb 10 ((max a 1 : Int) : ℝ) ≤ Real.logb 10 ((max b 1 : Int) : ℝ)
    apply Real.logb_le_logb_of_le (by norm_num : (1 : ℝ) < 10)
    · have h1 : (1 : Int) ≤ max a 1 := le_max_right a 1
      have h2 : (1 : ℝ) ≤ ((max a 1 : Int) : ℝ) := by exact_mod_cast h1
      linarith
    · exact_mod_cast max_le_max hab (le_refl (1 : Int))
  · intro n hn
    show Real.sqrt ((max n 0 : Int) : ℝ) = Real.sqrt (n : ℝ)
    rw [max_eq_left hn]
  · intro df_all p
    rcases dropnaLatLong_cases p.only_mapped ("Rank" :: df_all.cols ++ ["PopScale"])
        (rankedOf df_all p.top_n p.min_pop p.selected_countries p.query) with hd | hd
    · have h1 : viewRows df_all p = assignPopScale p.log_bubbles
          (rankedOf df_all p.top_n p.min_pop p.selected_countries p.query) := by
        unfold viewRows viewPipeline
        rw [hd]
      have h2 : viewRows df_all { p with log_bubbles := !p.log_bubbles } =
          assignPopScale (!p.log_bubbles)
            (rankedOf df_all p.top_n p.min_pop p.selected_countries p.query) := by
        unfold viewRows viewPipeline
        dsimp only
        rw [hd]
      rw [h1, h2, map_strip_assignPopScale, map_strip_assignPopScale]
    · have h1 : viewRows df_all p = [] := by
        unfold viewRows viewPipeline
        rw [hd]
      have h2 : viewRows df_all { p with log_bubbles := !p.log_bubbles } = [] := by
        unfold viewRows viewPipeline
        dsimp only
        rw [hd]
      rw [h1, h2]

/-- The single view row of the Tokyo frame under the default parameters. -/
def rankedTokyo : RankedRow :=
  { rank := 1, city := "Tokyo", country := "Japan", population := 37400068,
    source := wiki_source, popScale := ScaleVal.sqrtOf 37400068 }

/-- C8, witness: the formula and the sqrt interpretation, instantiated. -/
theorem popscale_presentation_witness :
    rankedTokyo.popScale = (if pDefault.log_bubbles then ScaleVal.log10Of rankedTokyo.population
                            else ScaleVal.sqrtOf rankedTokyo.population)
    ∧ (ScaleVal.sqrtOf 4).toReal = Real.sqrt ((4 : Int) : ℝ) :=
  ⟨popscale_presentation.1 dfTokyo pDefault rankedTokyo (by decide),
   popscale_presentation.2.2.2.1 4 (by decide)⟩

/-- The metacharacters of Python regular expressions.  Search text free of
them is matched literally by `re.search`. -/
def pyMetaChars : List Char :=
  ['.', '^', '$', '*', '+', '?', '\x7b', '\x7d', '[', ']', '\\', '|', '(', ')']

/-- A matcher congruence lifts pointwise to the position scan. -/
theorem scanMatch_congr (m1 m2 : List Char → List Char → Bool) (p : List Char)
    (h : ∀ cs, m1 p cs = m2 p cs) :
    ∀ text, scanMatch m1 p text = scanMatch m2 p text := by
  intro text
  induction text with
  | nil => exact h []
  | cons c cs ih =>
    unfold scanMatch
    rw [h (c :: cs), ih]

/-- On metacharacter-free patterns the regex prefix matcher is the literal
case-insensitive prefix comparison. -/
theorem patMatchesAt_literal (p : List Char) (hp : ∀ c ∈ p, ¬ c ∈ pyMetaChars) :
    ∀ cs, patMatchesAt p cs = litSubstrAt p cs := by
  induction p with
  | nil =>
    intro cs
    cases cs <;> rfl
  | cons a ps ih =>
    intro cs
    cases cs with
    | nil => rfl
    | cons c cs2 =>
      have ha : ¬ a ∈ pyMetaChars := hp a (List.mem_cons_self a ps)
      have hdot : (a == '.') = false := by
        apply beq_false_of_ne
        intro heq
        apply ha
        rw [heq]
        decide
      unfold patMatchesAt litSubstrAt
      rw [hdot]
      simp only [Bool.false_and, Bool.false_or]
      rw [ih (fun c hc => hp c (List.mem_cons_of_mem a hc)) cs2]

/-- C6, amended: the search filter keeps exactly the records whose city OR
country matches the search text as a case-insensitive regular expression
(`str.contains` compiles its pattern, `regex=True` being the pandas
default), the empty search text keeping every record; on search text free
of regex metacharacters this coincides with case-insensitive literal
substring matching. -/
theorem search_filter_regex (q : String) (rows : List CityRow) (r : CityRow) :
    (r ∈ search_filter q rows ↔
      r ∈ rows ∧ (q = "" ∨ re_search q r.city = true ∨ re_search q r.country = true))
    ∧ ((∀ c ∈ q.data, ¬ c ∈ pyMetaChars) →
        ∀ s : String, re_search q s = litSubstrCI q s) := by
  constructor
  · by_cases hq : q = ""
    · simp [search_filter, hq]
    · simp [search_filter, hq, List.mem_filter, Bool.or_eq_true]
  · intro hlit s
    unfold re_search litSubstrCI
    exact scanMatch_congr patMatchesAt litSubstrAt q.toList
      (patMatchesAt_literal q.toList hlit) s.toList

/-- Rows used by the search-filter witness. -/
def rowsW6 : List CityRow :=
  [{ city := "Tokyo", country := "Japan", population := 37400068, source := wiki_source },
   { city := "Delhi", country := "India", population := 28514000, source := wiki_source }]

/-- C6, witness: the membership characterisation instantiated at a concrete
row, and the literal coincidence at the metacharacter-free text `tok`. -/
theorem search_filter_regex_witness :
    (({ city := "Tokyo", country := "Japan", population := 37400068,
        source := wiki_source } : CityRow) ∈ search_filter "tok" rowsW6 ↔
      ({ city := "Tokyo", country := "Japan", population := 37400068,
         source := wiki_source } : CityRow) ∈ rowsW6 ∧
        ("tok" = "" ∨ re_search "tok" "Tokyo" = true ∨ re_search "tok" "Japan" = true))
    ∧ re_search "tok" "Tokyo" = litSubstrCI "tok" "Tokyo" :=
  ⟨(search_filter_regex "tok" rowsW6 _).1,
   (search_filter_regex "tok" rowsW6
     { city := "Tokyo", country := "Japan", population := 37400068,
       source := wiki_source }).2 (by decide) "Tokyo"⟩

/-- On a cell without line breaks the `QUOTE_MINIMAL` quoting condition is
exactly the spec condition (commas or quotes). -/
theorem any_noCRLF (cs : List Char)
    (h : cs.all (fun c => !(c == '\n' || c == '\r')) = true) :
    cs.any (fun c => c == ',' || c == '"' || c == '\n' || c == '\r') =
    cs.any (fun c => c == ',' || c == '"') := by
  induction cs with
  | nil => rfl
  | cons c cs ih =>
    rw [List.all_cons] at h
    obtain ⟨h1, h2⟩ := Bool.and_eq_true_iff.mp h
    have h1f : (c == '\n' || c == '\r') = false := by
      cases hv : (c == '\n' || c == '\r')
      · rfl
      · rw [hv] at h1
        cases h1
    have hx : (c == '\n') = false ∧ (c == '\r') = false := Bool.or_eq_false_iff.mp h1f
    rw [List.any_cons, List.any_cons, ih h2, hx.1, hx.2]
    rw [Bool.or_false, Bool.or_false]

/-- On a cell without line breaks the pandas field escaping is exactly the
spec field escaping. -/
theorem escape_eq (s : String)
    (h : s.data.all (fun c => !(c == '\n' || c == '\r')) = true) :
    csvEscapeMinimal s = specEscape s := by
  unfold csvEscapeMinimal specEscape needsQuoteMinimal needsQuoteSpec
  rw [show s.toList = s.data from rfl, any_noCRLF s.data h]

/-- C9: on view outputs whose cells contain no line breaks (every cell the
loader can produce), the pandas CSV export is exactly the spec projection —
header line of the five field names, then the records in view order, each
value quoted (with inner quotes doubled) exactly when the spec escaping
rule requires it; and any value containing a comma or a quote is always
written quoted with inner quotes doubled. -/
theorem csv_export_projection (df_all : CityFrame) (p : QueryParams)
    (h : ∀ r ∈ viewRows df_all p,
      ∀ c ∈ csvCells r, c.data.all (fun ch => !(ch == '\n' || ch == '\r')) = true) :
    toCsv (viewRows df_all p) = specCsvExport (viewRows df_all p)
    ∧ ∀ s : String, needsQuoteSpec s = true →
        csvEscapeMinimal s = "\"" ++ s.replace "\"" "\"\"" ++ "\"" := by
  constructor
  · have hline : ∀ r ∈ viewRows df_all p,
        csvLineWith csvEscapeMinimal (csvCells r) = csvLineWith specEscape (csvCells r) := by
      intro r hr
      unfold csvLineWith
      rw [List.map_congr_left (fun c hc => escape_eq c (h r hr c hc))]
    have hhead : csvLineWith csvEscapeMinimal csvHeaderCells =
        csvLineWith specEscape csvHeaderCells := by decide
    unfold toCsv specCsvExport
    rw [hhead, List.map_congr_left hline]
  · intro s hs
    have hmin : needsQuoteMinimal s = true := by
      obtain ⟨c, hc, hp⟩ := List.any_eq_true.mp hs
      apply List.any_eq_true.mpr
      refine ⟨c, hc, ?_⟩
      rcases Bool.or_eq_true_iff.mp hp with h1 | h1
      · simp [h1]
      · simp [h1]
    simp [csvEscapeMinimal, hmin]

/-- A frame whose city cell contains a comma, so the export witness
exercises the quoting path. -/
def dfComma : CityFrame :=
  { cols := ["City", "Country", "Population", "Source"],
    rows := [{ city := "Washington, D.C.", country := "United States",
               population := 700000, source := wiki_source }] }

/-- C9, witness: the export equality instantiated on a concrete view with a
comma-bearing value. -/
theorem csv_export_projection_witness :
    toCsv (viewRows dfComma pDefault) = specCsvExport (viewRows dfComma pDefault)
    ∧ ∀ s : String, needsQuoteSpec s = true →
        csvEscapeMinimal s = "\"" ++ s.replace "\"" "\"\"" ++ "\"" :=
  csv_export_projection dfComma pDefault (by decide)
